import Mathlib

/-!
Shallow embedding of the prompt-user-mcp server (Go).

The program lives in src/server/server.go and, in its extended form with the
browser input backend, in the server source embedded in src/README.md
(lines 442-919 there).  The two copies agree verbatim on every function both
contain; the embedded copy additionally has the web backend, the method
selector in the tool handler, and the method property in the tool schema.
The definitions below are translated from that extended source; for the
functions shared with src/server/server.go the two are identical.

Modelling conventions:
- JSON values are a Lean inductive; numbers are integers (every numeric
  literal in the protocol material is integral).
- Go's encoding/json Unmarshal into a struct is modelled field by field,
  including the zero-value defaults for absent fields and the rejection of
  mistyped fields.  Go also matches struct field names case-insensitively
  and lets later duplicate keys override earlier ones; the decoders below
  model the case-insensitive match through a fold-to-lowercase lookup and
  reject any case-variant of a known field that is mistyped.  Unicode
  simple-fold details and the no-op of a later null duplicate are not
  modelled; the theorems' hypotheses stay inside the region where the
  model and Go agree.
- The controlling terminal and the browser session are oracles: a TtyDevice
  value says what happens when /dev/tty is opened and read, a WaitOutcome
  value says whether the single-slot channel delivers a submission before
  the fixed timeout fires.
-/

namespace PromptMCP

/-- JSON values as produced by Go's encoding/json when unmarshalling into an
interface value.  Object fields keep their textual order. -/
inductive Json where
  | null
  | bool (b : Bool)
  | num (n : Int)
  | str (s : String)
  | arr (elems : List Json)
  | obj (fields : List (String × Json))

/-- Go strings.TrimSpace: removes leading and trailing whitespace.  Modelled
over the character list (ASCII whitespace; Go also folds a few rarer Unicode
space characters, which no claim touches). -/
def trimSpace (s : String) : String :=
  ⟨((s.data.dropWhile Char.isWhitespace).reverse.dropWhile Char.isWhitespace).reverse⟩

/-- ASCII lowercasing of one character, for Go json's case-insensitive
struct-field matching. -/
def lowerChar (c : Char) : Char :=
  if 'A' ≤ c && c ≤ 'Z' then Char.ofNat (c.toNat + 32) else c

/-- ASCII lowercasing of a key. -/
def lowerAscii (s : String) : String :=
  ⟨s.data.map lowerChar⟩

/-- Exact-key lookup in a JSON object, first occurrence. -/
def jlookup (fields : List (String × Json)) (key : String) : Option Json :=
  (fields.find? (fun kv => kv.1 == key)).map (fun kv => kv.2)

/-- Lookup in a Go map decoded from a JSON object: keys are exact and a later
duplicate key overrides an earlier one, hence the reverse search. -/
def mapLookup (args : List (String × Json)) (key : String) : Option Json :=
  (args.reverse.find? (fun kv => kv.1 == key)).map (fun kv => kv.2)

/-- Case-insensitive struct-field lookup as done by Go's json.Unmarshal, with
a later duplicate overriding an earlier one; key is given lowercased. -/
def lookupFold (fields : List (String × Json)) (key : String) : Option Json :=
  (fields.reverse.find? (fun kv => lowerAscii kv.1 == key)).map (fun kv => kv.2)

/-- True when no field of the object matches the (lowercased) struct field
name, not even case-insensitively. -/
def fieldAbsentCI (fields : List (String × Json)) (key : String) : Bool :=
  fields.all (fun kv => lowerAscii kv.1 != key)

/-- MCPError from src/server/server.go lines 33-36. -/
structure MCPError where
  code : Int
  message : String
deriving DecidableEq

/-- MCPResponse from src/server/server.go lines 26-31.  The id field has no
omitempty tag, so an absent request id (modelled as Json.null) is echoed as
a literal null. -/
structure MCPResponse where
  jsonrpc : String
  id : Json
  result : Option Json
  error : Option MCPError

/-- MCPRequest from src/server/server.go lines 19-24, after a successful
json.Unmarshal of an input line. -/
structure MCPRequest where
  jsonrpc : String
  id : Json
  method : String
  params : Json

/-- UserInputRequest from src/server/server.go lines 38-41. -/
structure UserInputRequest where
  prompt : String
  timeout : Int
deriving DecidableEq

/-- UserInputResult from src/server/server.go lines 43-46. -/
structure UserInputResult where
  response : String
  success : Bool
deriving DecidableEq

/-- sendResponse (src/server/server.go lines 271-280): result set, no error. -/
def sendResponse (id : Json) (result : Json) : MCPResponse :=
  { jsonrpc := "2.0", id := id, result := some result, error := none }

/-- sendError (src/server/server.go lines 282-294): error set, no result. -/
def sendError (id : Json) (code : Int) (message : String) : MCPResponse :=
  { jsonrpc := "2.0", id := id, result := none, error := some ⟨code, message⟩ }

/-- Serialization of a UserInputResult value. -/
def userInputResultJson (r : UserInputResult) : Json :=
  .obj [("response", .str r.response), ("success", .bool r.success)]

/-- Result payload built by handleInitialize (src/server/server.go 105-120). -/
def initializeResult : Json :=
  .obj [
    ("protocolVersion", .str "2024-11-05"),
    ("capabilities", .obj [("tools", .obj [("listChanged", .bool false)])]),
    ("serverInfo", .obj [("name", .str "prompt-mcp"), ("version", .str "1.0.0")])]

/-- Result payload built by handleCapabilities (src/server/server.go 122-132). -/
def capabilitiesResult : Json :=
  .obj [("capabilities", .obj [("tools", .obj [("listChanged", .bool false)])])]

/-- The single tool entry built by handleToolsList in the extended server
source embedded in src/README.md (lines 590-616 there); the copy in
src/server/server.go lines 134-154 is the same minus the method property. -/
def userInputToolEntry : Json :=
  .obj [
    ("name", .str "user_input"),
    ("description", .str "Request input or approval from the user"),
    ("inputSchema", .obj [
      ("type", .str "object"),
      ("properties", .obj [
        ("prompt", .obj [
          ("type", .str "string"),
          ("description", .str "The prompt to show to the user")]),
        ("timeout", .obj [
          ("type", .str "integer"),
          ("description", .str "Optional timeout in seconds")]),
        ("method", .obj [
          ("type", .str "string"),
          ("description", .str "Input method: \x27tty\x27 (terminal) or \x27web\x27 (browser)"),
          ("enum", .arr [.str "tty", .str "web"]),
          ("default", .str "tty")])]),
      ("required", .arr [.str "prompt"])])]

/-- Result payload of handleToolsList: a one-entry tools array. -/
def toolsListResult : Json :=
  .obj [("tools", .arr [userInputToolEntry])]

/-- Lookup of a key inside a JSON object value. -/
def jGet (j : Json) (key : String) : Option Json :=
  match j with
  | .obj fields => jlookup fields key
  | _ => none

/-- Path lookup through nested JSON objects. -/
def jPath (j : Json) : List String → Option Json
  | [] => some j
  | k :: ks =>
    match jGet j k with
    | some v => jPath v ks
    | none => none

/-! ## Terminal backend (getUserInputFromTTY, src/server/server.go 214-237) -/

/-- Outcome of the single scanner.Scan() call on the opened terminal. -/
inductive ScanOutcome where
  | line (s : String)
  | eof
  | ioError (e : String)

/-- Oracle for the controlling terminal device: either opening /dev/tty fails,
or it opens and one scan is performed. -/
inductive TtyDevice where
  | openError (e : String)
  | opened (scan : ScanOutcome)

/-- What one call of getUserInputFromTTY does: the text written to the
terminal and the (string, error) pair returned. -/
structure TtyInteraction where
  written : String
  result : Except String String

/-- getUserInputFromTTY (src/server/server.go 214-237): open /dev/tty, write
the prompt plus a newline, write the response cue, read one line and trim it;
a scan returning false with no scanner error yields the empty string with no
error; an open failure or scanner error is returned as an error. -/
def getUserInputFromTTY (prompt : String) (dev : TtyDevice) : TtyInteraction :=
  match dev with
  | .openError e => ⟨"", .error ("failed to open /dev/tty: " ++ e)⟩
  | .opened (.line s) => ⟨prompt ++ "\n" ++ "Response: ", .ok (trimSpace s)⟩
  | .opened .eof => ⟨prompt ++ "\n" ++ "Response: ", .ok ""⟩
  | .opened (.ioError e) =>
    ⟨prompt ++ "\n" ++ "Response: ", .error ("failed to read from terminal: " ++ e)⟩

/-! ## Browser backend (getUserInputFromWeb and WebInputHandler,
src/README.md embedded server source, lines 719-845 there) -/

/-- Outcome of the select between the single-slot response channel and the
five-minute timer in getUserInputFromWeb. -/
inductive WaitOutcome where
  | delivered (s : String)
  | timedOut

/-- Observable effect of one getUserInputFromWeb call: the (string, error)
pair returned, whether handler.shutdown() ran, and the grace period (in
seconds) of the shutdown context it used. -/
structure WebAcquire where
  text : String
  err : Option String
  shutdownCalled : Bool
  shutdownGraceSeconds : Nat
deriving DecidableEq

/-- The fixed timeout of the web backend: time.After(5 * time.Minute). -/
def webInputTimeoutSeconds : Nat := 5 * 60

/-- getUserInputFromWeb (src/README.md embedded server source, lines
719-773 there): a port-listen failure is returned as an error before any
server starts; otherwise the call blocks on the select and on either branch
calls shutdown(), whose context carries a one-second grace period, returning
the delivered text or a timeout error with the empty string. -/
def getUserInputFromWeb (listen : Except String Unit) (wait : WaitOutcome) : WebAcquire :=
  match listen with
  | .error e => ⟨"", some ("failed to find available port: " ++ e), false, 0⟩
  | .ok _ =>
    match wait with
    | .delivered s => ⟨s, none, true, 1⟩
    | .timedOut => ⟨"", some "timeout waiting for web input", true, 1⟩

/-- The (string, error) view of a WebAcquire, as the tool handler sees it. -/
def webAcquireResult (w : WebAcquire) : Except String String :=
  match w.err with
  | some e => .error e
  | none => .ok w.text

/-- One HTTP request hitting the /submit route: its method and the value of
the single form field named response. -/
structure Submission where
  httpMethod : String
  response : String
deriving DecidableEq

/-- HTTP reply of the /submit route: status and body. -/
inductive HttpReply where
  | ok200 (body : String)
  | badRequest400 (body : String)
  | methodNotAllowed405
deriving DecidableEq

/-- Acknowledgement page written on a successful submission. -/
def thankYouPage : String :=
  "<html><body><h1>Thank you!</h1><p>Your response has been submitted. You can close this tab.</p></body></html>"

/-- handleSubmit (src/README.md embedded server source, lines 818-837 there).
The slot models the capacity-one response channel while the acquiring
goroutine is still parked on the select: a send succeeds exactly when the
slot is empty, otherwise the default branch answers 400. -/
def handleSubmit (slot : Option String) (sub : Submission) : Option String × HttpReply :=
  if sub.httpMethod ≠ "POST" then (slot, .methodNotAllowed405)
  else if sub.response = "" then (slot, .badRequest400 "Response cannot be empty")
  else
    match slot with
    | none => (some sub.response, .ok200 thankYouPage)
    | some s => (some s, .badRequest400 "Response already submitted")

/-- Sequential run of a list of submissions against the session slot,
collecting the replies; models submissions arriving while the acquiring
goroutine still waits. -/
def processSubmissions (slot : Option String) : List Submission → Option String × List HttpReply
  | [] => (slot, [])
  | sub :: rest =>
    let step := handleSubmit slot sub
    let next := processSubmissions step.1 rest
    (next.1, step.2 :: next.2)

/-- Modelled from the spec: the reply sequence the spec promises for a
browser-backend session whose requests are all POSTs — an empty submission
gets 400, the first non-empty one gets 200 with the acknowledgement page,
every later non-empty one gets the already-submitted 400. -/
def specSubmitReplies (consumed : Bool) : List Submission → List HttpReply
  | [] => []
  | sub :: rest =>
    if sub.response = "" then
      .badRequest400 "Response cannot be empty" :: specSubmitReplies consumed rest
    else if consumed then
      .badRequest400 "Response already submitted" :: specSubmitReplies consumed rest
    else
      .ok200 thankYouPage :: specSubmitReplies true rest

/-- Text of the first submission with a non-empty response field. -/
def firstHonored (subs : List Submission) : Option String :=
  (subs.find? (fun sub => sub.response != "")).map (fun sub => sub.response)

/-- Recognizer for a 200 reply. -/
def isOk200 : HttpReply → Bool
  | .ok200 _ => true
  | _ => false

/-! ## Decoders for handler parameters (Go json.Unmarshal into structs) -/

/-- A JSON value acceptable for a Go string struct field (null is a no-op). -/
def strTypeOk : Json → Bool
  | .null => true
  | .str _ => true
  | _ => false

/-- A JSON value acceptable for a Go int struct field. -/
def intTypeOk : Json → Bool
  | .null => true
  | .num _ => true
  | _ => false

/-- A JSON value acceptable for a Go map struct field. -/
def objTypeOk : Json → Bool
  | .null => true
  | .obj _ => true
  | _ => false

/-- Value a Go string field receives from an optional JSON field. -/
def strFieldValue : Option Json → String
  | some (.str s) => s
  | _ => ""

/-- Value a Go int field receives from an optional JSON field. -/
def intFieldValue : Option Json → Int
  | some (.num n) => n
  | _ => 0

/-- Value a Go map field receives from an optional JSON field. -/
def objFieldValue : Option Json → List (String × Json)
  | some (.obj f) => f
  | _ => []

/-- Go json.Unmarshal of the re-marshalled params into UserInputRequest
(src/server/server.go 246-250): null leaves the zero value, a non-object is
rejected, and within an object every case-variant of prompt must be a string
and every case-variant of timeout an integer, absent fields defaulting to
the zero value. -/
def decodeUserInputRequest : Json → Option UserInputRequest
  | .null => some ⟨"", 0⟩
  | .obj fields =>
    if fields.all (fun kv =>
        (lowerAscii kv.1 != "prompt" || strTypeOk kv.2) &&
        (lowerAscii kv.1 != "timeout" || intTypeOk kv.2)) then
      some ⟨strFieldValue (lookupFold fields "prompt"),
            intFieldValue (lookupFold fields "timeout")⟩
    else none
  | _ => none

/-- Go json.Unmarshal of the re-marshalled params into the anonymous toolCall
struct of handleToolCall (src/server/server.go 170-177): name must be a
string, arguments an object, both optional. -/
def decodeToolCall : Json → Option (String × List (String × Json))
  | .null => some ("", [])
  | .obj fields =>
    if fields.all (fun kv =>
        (lowerAscii kv.1 != "name" || strTypeOk kv.2) &&
        (lowerAscii kv.1 != "arguments" || objTypeOk kv.2)) then
      some (strFieldValue (lookupFold fields "name"),
            objFieldValue (lookupFold fields "arguments"))
    else none
  | _ => none

/-- The type assertion args["prompt"].(string) in handleUserInputTool
(src/server/server.go 188): some prompt exactly when the arguments map has a
prompt key holding a string. -/
def promptArg (args : List (String × Json)) : Option String :=
  match mapLookup args "prompt" with
  | some (.str s) => some s
  | _ => none

/-- The two acquisition backends. -/
inductive Backend where
  | tty
  | web
deriving DecidableEq

/-- Extraction of the method argument in handleUserInputTool (src/README.md
embedded server source, lines 656-662 there): the method string when present
as a string, otherwise the default tty. -/
def selectedMethod (args : List (String × Json)) : String :=
  match mapLookup args "method" with
  | some (.str m) => m
  | _ => "tty"

/-- The switch on method (same source, lines 667-674): web selects the
browser backend, tty and every other string fall through to the terminal. -/
def selectedBackend (args : List (String × Json)) : Backend :=
  if selectedMethod args = "web" then .web else .tty

/-! ## Handlers and dispatch loop -/

/-- Environment of oracles a single dispatched request may consult: the
controlling terminal and, for the web backend, the port-listen outcome and
the single-slot wait outcome. -/
structure Env where
  tty : TtyDevice
  webListen : Except String Unit
  webWait : WaitOutcome

/-- Acquisition dispatch inside handleUserInputTool: terminal read or web
session, as a (string, error) pair. -/
def acquireInput (env : Env) (prompt : String) : Backend → Except String String
  | .tty => (getUserInputFromTTY prompt env.tty).result
  | .web => webAcquireResult (getUserInputFromWeb env.webListen env.webWait)

/-- Content-wrapped success payload of the tool handler. -/
def toolCallContent (response : String) : Json :=
  .obj [
    ("content", .arr [.obj [("type", .str "text"), ("text", .str response)]]),
    ("isError", .bool false)]

/-- handleUserInputTool (src/README.md embedded server source, lines 649-692
there; the copy in src/server/server.go 187-212 is the same without the
method selection).  Besides the response, the second component records which
backend was invoked, none when validation failed before any acquisition. -/
def handleUserInputTool (env : Env) (id : Json) (args : List (String × Json)) :
    MCPResponse × Option Backend :=
  match promptArg args with
  | none => (sendError id (-32602) "Missing or invalid prompt parameter", none)
  | some prompt =>
    let backend := selectedBackend args
    match acquireInput env prompt backend with
    | .error e => (sendError id (-32603) ("Failed to get user input: " ++ e), some backend)
    | .ok response => (sendResponse id (toolCallContent response), some backend)

/-- handleToolCall (src/server/server.go 163-185).  The json.Marshal of
params cannot fail on a value that itself came from json.Unmarshal, so only
the decode of the marshalled bytes can reject. -/
def handleToolCall (env : Env) (id : Json) (params : Json) :
    MCPResponse × Option Backend :=
  match decodeToolCall params with
  | none => (sendError id (-32602) "Invalid params", none)
  | some (name, args) =>
    if name = "user_input" then handleUserInputTool env id args
    else (sendError id (-32601) "Unknown tool", none)

/-- handleUserInput, the legacy direct method (src/server/server.go 239-269).
Its only acquisition input is the terminal device: the legacy path always
uses the terminal backend.  A backend failure is swallowed into a result
with empty response and success false, never an error envelope. -/
def handleUserInput (dev : TtyDevice) (id : Json) (params : Json) : MCPResponse :=
  match decodeUserInputRequest params with
  | none => sendError id (-32602) "Invalid params"
  | some userReq =>
    match (getUserInputFromTTY userReq.prompt dev).result with
    | .error _ => sendResponse id (userInputResultJson ⟨"", false⟩)
    | .ok response => sendResponse id (userInputResultJson ⟨response, true⟩)

/-- handleInitialize (src/server/server.go 105-120). -/
def handleInitialize (id : Json) : MCPResponse :=
  sendResponse id initializeResult

/-- handleCapabilities (src/server/server.go 122-132). -/
def handleCapabilities (id : Json) : MCPResponse :=
  sendResponse id capabilitiesResult

/-- handleToolsList (extended version with the method property). -/
def handleToolsList (id : Json) : MCPResponse :=
  sendResponse id toolsListResult

/-- The method switch in Start (src/server/server.go 83-99): responses a
single well-formed request produces.  Only notifications/initialized is
skipped without a response; every other branch emits exactly one. -/
def handleRequest (env : Env) (req : MCPRequest) : List MCPResponse :=
  match req.method with
  | "initialize" => [handleInitialize req.id]
  | "notifications/initialized" => []
  | "capabilities/list" => [handleCapabilities req.id]
  | "tools/list" => [handleToolsList req.id]
  | "tools/call" => [(handleToolCall env req.id req.params).1]
  | "user_input" => [handleUserInput env.tty req.id req.params]
  | _ => [sendError req.id (-32601) "Method not found"]

/-- One input line as the loop in Start sees it after TrimSpace: blank (and
skipped), failing json.Unmarshal with whatever id the partial decode left in
the zero-valued request (the best-effort id), or a decoded request. -/
inductive Line where
  | blank
  | malformed (bestEffortId : Json)
  | request (req : MCPRequest)

/-- The body of the scan loop in Start (src/server/server.go 65-100) for one
line: blank lines produce nothing, a malformed line produces one parse-error
response with code -32700, a decoded request is dispatched by method. -/
def dispatchLine (env : Env) : Line → List MCPResponse
  | .blank => []
  | .malformed bid => [sendError bid (-32700) "Parse error"]
  | .request req => handleRequest env req

/-- The scan loop of Start over a whole input: every line is processed in
order and the emitted response lines are concatenated. -/
def processLines (env : Env) : List Line → List MCPResponse
  | [] => []
  | l :: rest => dispatchLine env l ++ processLines env rest

/-- A concrete oracle environment for closed instances. -/
def sampleEnv : Env :=
  { tty := .opened (.line "ok"), webListen := .ok (), webWait := .delivered "ok" }

/-! ## Helper lemmas -/

theorem processLines_append (env : Env) (a b : List Line) :
    processLines env (a ++ b) = processLines env a ++ processLines env b := by
  induction a with
  | nil => simp [processLines]
  | cons l t ih => simp [processLines, ih]

theorem handleUserInputTool_id (env : Env) (id : Json) (args : List (String × Json)) :
    ((handleUserInputTool env id args).1).id = id := by
  unfold handleUserInputTool
  split
  · rfl
  · dsimp only
    split <;> rfl

theorem handleToolCall_id (env : Env) (id : Json) (params : Json) :
    ((handleToolCall env id params).1).id = id := by
  unfold handleToolCall
  cases decodeToolCall params with
  | none => rfl
  | some nameArgs =>
    by_cases h : nameArgs.1 = "user_input" <;>
      simp [h, handleUserInputTool_id, sendError]

theorem handleUserInput_id (dev : TtyDevice) (id : Json) (params : Json) :
    (handleUserInput dev id params).id = id := by
  unfold handleUserInput
  split
  · rfl
  · split <;> rfl

/-! ## Claims -/

/-- C4: for the browser backend, a wait that ends by timeout makes acquire
return the empty string together with the timeout error, a wait that ends by
delivery returns the delivered text with no error, on either outcome the
listener shutdown runs with its bounded (one-second) grace period, and the
fixed timeout of the wait is five minutes. -/
theorem web_timeout_and_shutdown :
    getUserInputFromWeb (Except.ok ()) WaitOutcome.timedOut =
      ⟨"", some "timeout waiting for web input", true, 1⟩ ∧
    (∀ s, getUserInputFromWeb (Except.ok ()) (WaitOutcome.delivered s) = ⟨s, none, true, 1⟩) ∧
    (∀ w, (getUserInputFromWeb (Except.ok ()) w).shutdownCalled = true) ∧
    webInputTimeoutSeconds = 300 := by
  refine ⟨rfl, fun s => rfl, fun w => ?_, rfl⟩
  cases w <;> rfl

/-- C5: the terminal backend writes the prompt, a newline and the response
cue to the controlling terminal, reads one line and returns it trimmed of
surrounding whitespace with no error; a scan that ends with zero bytes read
returns the empty string with no error; in particular the typed answer
hello yields (hello, no error). -/
theorem tty_acquire_reads_one_trimmed_line (prompt s : String) :
    getUserInputFromTTY prompt (TtyDevice.opened (ScanOutcome.line s)) =
      ⟨prompt ++ "\n" ++ "Response: ", Except.ok (trimSpace s)⟩ ∧
    getUserInputFromTTY prompt (TtyDevice.opened ScanOutcome.eof) =
      ⟨prompt ++ "\n" ++ "Response: ", Except.ok ""⟩ ∧
    (getUserInputFromTTY prompt (TtyDevice.opened (ScanOutcome.line "hello"))).result =
      Except.ok "hello" := by
  refine ⟨rfl, rfl, ?_⟩
  show Except.ok (trimSpace "hello") = Except.ok "hello"
  rfl

/-- C6: a non-blank line that fails to decode makes the dispatcher emit
exactly one error response, with code -32700 and the best-effort id, and the
loop then continues: the surrounding lines are processed exactly as they
would be on their own. -/
theorem parse_error_single_response_then_continues (env : Env) (bid : Json)
    (pre post : List Line) :
    dispatchLine env (Line.malformed bid) = [sendError bid (-32700) "Parse error"] ∧
    processLines env (pre ++ Line.malformed bid :: post) =
      processLines env pre ++ sendError bid (-32700) "Parse error" :: processLines env post := by
  refine ⟨rfl, ?_⟩
  rw [processLines_append]
  simp [processLines, dispatchLine]

/-- C7: every tools/list request is answered with the static catalog holding
exactly one tool, named user_input, whose schema requires exactly the prompt
field and describes prompt as a string, timeout as an integer and method as
a string with enum tty, web and default tty. -/
theorem tools_list_catalog :
    (∀ id, handleToolsList id = sendResponse id toolsListResult) ∧
    jPath toolsListResult ["tools"] = some (Json.arr [userInputToolEntry]) ∧
    jPath userInputToolEntry ["name"] = some (Json.str "user_input") ∧
    jPath userInputToolEntry ["inputSchema", "required"] =
      some (Json.arr [Json.str "prompt"]) ∧
    jPath userInputToolEntry ["inputSchema", "properties", "prompt", "type"] =
      some (Json.str "string") ∧
    jPath userInputToolEntry ["inputSchema", "properties", "timeout", "type"] =
      some (Json.str "integer") ∧
    jPath userInputToolEntry ["inputSchema", "properties", "method", "type"] =
      some (Json.str "string") ∧
    jPath userInputToolEntry ["inputSchema", "properties", "method", "enum"] =
      some (Json.arr [Json.str "tty", Json.str "web"]) ∧
    jPath userInputToolEntry ["inputSchema", "properties", "method", "default"] =
      some (Json.str "tty") :=
  ⟨fun _ => rfl, rfl, rfl, rfl, rfl, rfl, rfl, rfl, rfl⟩

/-- C1 (amended): for every well-formed request, if the method is
notifications/initialized the dispatcher emits zero response lines,
regardless of any id; for every other method it emits exactly one response
line, and that response echoes the request's id field unchanged (a null id,
the decoding of an absent id, is echoed as null). -/
theorem dispatch_echoes_id (env : Env) (req : MCPRequest) :
    (dispatchLine env (Line.request req)).map MCPResponse.id =
      if req.method = "notifications/initialized" then [] else [req.id] := by
  show (handleRequest env req).map MCPResponse.id = _
  unfold handleRequest
  split <;>
    simp_all [handleInitialize, handleCapabilities, handleToolsList,
      sendResponse, sendError, handleToolCall_id, handleUserInput_id]

/-- C1 counterexample: a well-formed request carrying no id (decoded id
null) with method initialize receives one response line, not the zero the
claim predicts for id-less requests; and a request carrying id 7 with
method notifications/initialized receives zero response lines, not the one
the claim predicts for id-carrying requests. -/
theorem request_without_id_still_answered :
    (dispatchLine sampleEnv (Line.request
      { jsonrpc := "2.0", id := Json.null, method := "initialize",
        params := Json.null })).length = 1 ∧
    (dispatchLine sampleEnv (Line.request
      { jsonrpc := "2.0", id := Json.num 7, method := "notifications/initialized",
        params := Json.null })).length = 0 :=
  ⟨rfl, rfl⟩

/-- C2: when the legacy user_input handler's params decode and the terminal
acquisition fails — for any device failure, such as an unavailable
controlling terminal — the handler answers with the result object carrying
an empty response and success false, and never with an error envelope; its
only acquisition input is the terminal device. -/
theorem legacy_failure_swallowed (dev : TtyDevice) (id params : Json)
    (userReq : UserInputRequest) (e : String)
    (hdec : decodeUserInputRequest params = some userReq)
    (herr : (getUserInputFromTTY userReq.prompt dev).result = Except.error e) :
    handleUserInput dev id params =
      sendResponse id (userInputResultJson ⟨"", false⟩) ∧
    (handleUserInput dev id params).error = none := by
  have h : handleUserInput dev id params =
      sendResponse id (userInputResultJson ⟨"", false⟩) := by
    unfold handleUserInput
    simp only [hdec, herr]
  exact ⟨h, by rw [h]; rfl⟩

/-- C2 witness: with the controlling terminal unavailable, the legacy
request with prompt hi is answered by the empty-response, success-false
result object. -/
theorem legacy_failure_swallowed_witness :
    decodeUserInputRequest (Json.obj [("prompt", Json.str "hi")]) = some ⟨"hi", 0⟩ ∧
    (getUserInputFromTTY "hi" (TtyDevice.openError "no tty")).result =
      Except.error "failed to open /dev/tty: no tty" ∧
    (handleUserInput (TtyDevice.openError "no tty") (Json.num 1)
        (Json.obj [("prompt", Json.str "hi")]) =
      sendResponse (Json.num 1) (userInputResultJson ⟨"", false⟩) ∧
    (handleUserInput (TtyDevice.openError "no tty") (Json.num 1)
        (Json.obj [("prompt", Json.str "hi")])).error = none) :=
  ⟨rfl, rfl, legacy_failure_swallowed _ _ _ _ _ rfl rfl⟩

/-- C8: a tools/call invocation of user_input whose arguments lack a prompt
key holding a string — the key is absent or its value has another type — is
answered with the invalid-params error -32602, and no acquisition backend is
invoked. -/
theorem tool_missing_prompt_rejected (env : Env) (id : Json)
    (args : List (String × Json)) (h : promptArg args = none) :
    handleUserInputTool env id args =
      (sendError id (-32602) "Missing or invalid prompt parameter", none) := by
  unfold handleUserInputTool
  rw [h]

/-- C8 witness: arguments holding only a method key have no prompt, and the
handler answers -32602 without touching a backend. -/
theorem tool_missing_prompt_rejected_witness :
    promptArg [("method", Json.str "web")] = none ∧
    handleUserInputTool sampleEnv (Json.num 3) [("method", Json.str "web")] =
      (sendError (Json.num 3) (-32602) "Missing or invalid prompt parameter", none) :=
  ⟨rfl, tool_missing_prompt_rejected _ _ _ rfl⟩

/-- C9: on a tools/call invocation of user_input with a valid prompt, the
invoked backend is exactly the selected one, and the selection is the
browser backend precisely when the arguments carry a method key holding the
string web; an absent method key, a non-string value or any other string
selects the terminal backend. -/
theorem tool_backend_selection (env : Env) (id : Json)
    (args : List (String × Json)) (p : String) (h : promptArg args = some p) :
    (handleUserInputTool env id args).2 = some (selectedBackend args) ∧
    (selectedBackend args = Backend.web ↔
      mapLookup args "method" = some (Json.str "web")) := by
  constructor
  · unfold handleUserInputTool
    rw [h]
    dsimp only
    split <;> rfl
  · unfold selectedBackend selectedMethod
    cases hm : mapLookup args "method" with
    | none => simp
    | some j =>
      cases j with
      | str m => by_cases hw : m = "web" <;> simp [hw]
      | null => simp
      | bool b => simp
      | num n => simp
      | arr elems => simp
      | obj fields => simp

/-- C9 witness: with prompt q and method web the browser backend is both
selected and invoked. -/
theorem tool_backend_selection_witness :
    promptArg [("prompt", Json.str "q"), ("method", Json.str "web")] = some "q" ∧
    ((handleUserInputTool sampleEnv (Json.num 4)
        [("prompt", Json.str "q"), ("method", Json.str "web")]).2 =
      some (selectedBackend [("prompt", Json.str "q"), ("method", Json.str "web")]) ∧
    (selectedBackend [("prompt", Json.str "q"), ("method", Json.str "web")] = Backend.web ↔
      mapLookup [("prompt", Json.str "q"), ("method", Json.str "web")] "method" =
        some (Json.str "web"))) :=
  ⟨rfl, tool_backend_selection _ _ _ _ rfl⟩

theorem processSubmissions_spec (subs : List Submission) (slot : Option String)
    (hpost : ∀ sub ∈ subs, sub.httpMethod = "POST") :
    (processSubmissions slot subs).2 = specSubmitReplies slot.isSome subs ∧
    (processSubmissions slot subs).1 =
      (match slot with
        | some s => some s
        | none => firstHonored subs) := by
  induction subs generalizing slot with
  | nil => cases slot <;> simp [processSubmissions, specSubmitReplies, firstHonored]
  | cons sub rest ih =>
    have hp : sub.httpMethod = "POST" := hpost sub (List.mem_cons_self sub rest)
    have hrest : ∀ x ∈ rest, x.httpMethod = "POST" :=
      fun x hx => hpost x (List.mem_cons_of_mem sub hx)
    cases slot with
    | some s =>
      by_cases he : sub.response = "" <;>
        simp [processSubmissions, handleSubmit, hp, he, specSubmitReplies,
          ih (some s) hrest]
    | none =>
      by_cases he : sub.response = "" <;>
        simp [processSubmissions, handleSubmit, hp, he, specSubmitReplies,
          firstHonored, List.find?_cons, ih _ hrest]

theorem specSubmitReplies_consumed_no_ok (subs : List Submission) :
    ((specSubmitReplies true subs).countP isOk200) = 0 := by
  induction subs with
  | nil => simp [specSubmitReplies]
  | cons sub rest ih =>
    by_cases he : sub.response = "" <;>
      simp [specSubmitReplies, he, isOk200, ih, List.countP_cons]

theorem specSubmitReplies_at_most_one_ok (subs : List Submission) :
    ((specSubmitReplies false subs).countP isOk200) ≤ 1 := by
  induction subs with
  | nil => simp [specSubmitReplies]
  | cons sub rest ih =>
    by_cases he : sub.response = "" <;>
      simp [specSubmitReplies, he, isOk200, ih, List.countP_cons,
        specSubmitReplies_consumed_no_ok]

/-- C3: for a browser-backend session whose submissions are all POSTs, the
replies are exactly the ones the spec promises — every empty submission
gets 400, the first non-empty one gets 200 with the acknowledgement page,
every later one gets the already-submitted 400 — so at most one submission
is ever honored, the slot ends up holding exactly the first non-empty
submission's text, and acquire returns exactly that delivered text. -/
theorem web_submit_single_honor (subs : List Submission)
    (hpost : ∀ sub ∈ subs, sub.httpMethod = "POST") :
    (processSubmissions none subs).2 = specSubmitReplies false subs ∧
    ((processSubmissions none subs).2.countP isOk200) ≤ 1 ∧
    (processSubmissions none subs).1 = firstHonored subs ∧
    (∀ t, firstHonored subs = some t →
      webAcquireResult (getUserInputFromWeb (Except.ok ()) (WaitOutcome.delivered t)) =
        Except.ok t) := by
  obtain ⟨h1, h2⟩ := processSubmissions_spec subs none hpost
  refine ⟨h1, ?_, h2, fun t ht => rfl⟩
  rw [h1]
  exact specSubmitReplies_at_most_one_ok subs

/-- Concrete submission sequence: a first answer, an empty retry, a late
second answer. -/
def subsW : List Submission :=
  [⟨"POST", "yes"⟩, ⟨"POST", ""⟩, ⟨"POST", "later"⟩]

/-- C3 witness: on the concrete sequence the first submission is honored
with 200, the empty and the late ones get 400, and acquire returns yes. -/
theorem web_submit_single_honor_witness :
    (∀ sub ∈ subsW, sub.httpMethod = "POST") ∧
    ((processSubmissions none subsW).2 = specSubmitReplies false subsW ∧
     ((processSubmissions none subsW).2.countP isOk200) ≤ 1 ∧
     (processSubmissions none subsW).1 = firstHonored subsW ∧
     (∀ t, firstHonored subsW = some t →
       webAcquireResult (getUserInputFromWeb (Except.ok ()) (WaitOutcome.delivered t)) =
         Except.ok t)) :=
  ⟨by decide, web_submit_single_honor subsW (by decide)⟩

/-- C10 counterexample: params holding only a mistyped timeout field is a
JSON object omitting the prompt field, yet the legacy handler rejects it
with the invalid-params error -32602 instead of proceeding to terminal
acquisition, because json.Unmarshal fails on the string-typed timeout. -/
theorem legacy_mistyped_timeout_rejected :
    jlookup [("timeout", Json.str "abc")] "prompt" = none ∧
    decodeUserInputRequest (Json.obj [("timeout", Json.str "abc")]) = none ∧
    handleUserInput (TtyDevice.opened (ScanOutcome.line "ok")) (Json.num 9)
        (Json.obj [("timeout", Json.str "abc")]) =
      sendError (Json.num 9) (-32602) "Invalid params" :=
  ⟨rfl, rfl, rfl⟩

/-- C10 (amended): for every legacy user_input request whose params is a
JSON object with no prompt field (not even a case-variant of one) and whose
timeout fields, if any, are well-typed, decoding succeeds with the empty
prompt and no invalid-params error is returned: the handler proceeds to
terminal acquisition exactly as if an empty prompt had been supplied. -/
theorem legacy_prompt_optional (fields : List (String × Json)) (dev : TtyDevice)
    (id : Json) (hp : fieldAbsentCI fields "prompt" = true)
    (ht : fields.all (fun kv => lowerAscii kv.1 != "timeout" || intTypeOk kv.2) = true) :
    (∃ r, decodeUserInputRequest (Json.obj fields) = some r ∧ r.prompt = "") ∧
    handleUserInput dev id (Json.obj fields) =
      handleUserInput dev id (Json.obj [("prompt", Json.str "")]) := by
  have hp2 : ∀ kv ∈ fields, (lowerAscii kv.1 != "prompt") = true :=
    List.all_eq_true.mp hp
  have ht2 := List.all_eq_true.mp ht
  have hall : fields.all (fun kv =>
      (lowerAscii kv.1 != "prompt" || strTypeOk kv.2) &&
      (lowerAscii kv.1 != "timeout" || intTypeOk kv.2)) = true := by
    rw [List.all_eq_true]
    intro kv hkv
    have h2 := ht2 kv hkv
    simp only [Bool.and_eq_true, Bool.or_eq_true]
    rw [Bool.or_eq_true] at h2
    exact ⟨Or.inl (hp2 kv hkv), h2⟩
  have hfind : fields.reverse.find? (fun kv => lowerAscii kv.1 == "prompt") = none := by
    rw [List.find?_eq_none]
    intro kv hkv
    have hx := hp2 kv (List.mem_reverse.mp hkv)
    simp only [bne_iff_ne, ne_eq] at hx
    simp [hx]
  have hnone : lookupFold fields "prompt" = none := by
    simp [lookupFold, hfind]
  have hdec : decodeUserInputRequest (Json.obj fields) =
      some ⟨"", intFieldValue (lookupFold fields "timeout")⟩ := by
    simp only [decodeUserInputRequest, hall, if_true, hnone]
    rfl
  refine ⟨⟨_, hdec, rfl⟩, ?_⟩
  simp only [handleUserInput, hdec]
  rfl

/-- C10 witness: params carrying only an integer timeout decodes with the
empty prompt and is handled exactly as an explicit empty prompt. -/
theorem legacy_prompt_optional_witness :
    fieldAbsentCI [("timeout", Json.num 5)] "prompt" = true ∧
    List.all [("timeout", Json.num 5)]
      (fun kv => lowerAscii kv.1 != "timeout" || intTypeOk kv.2) = true ∧
    ((∃ r, decodeUserInputRequest (Json.obj [("timeout", Json.num 5)]) = some r ∧
        r.prompt = "") ∧
     handleUserInput (TtyDevice.opened (ScanOutcome.line "yes")) (Json.num 2)
         (Json.obj [("timeout", Json.num 5)]) =
       handleUserInput (TtyDevice.opened (ScanOutcome.line "yes")) (Json.num 2)
         (Json.obj [("prompt", Json.str "")])) :=
  ⟨rfl, rfl, legacy_prompt_optional _ _ _ rfl rfl⟩

end PromptMCP
